import Mathlib

set_option maxHeartbeats 1000000

/-!
Verification development for the contributor-quality scoring pipeline.

The TypeScript sources are embedded shallowly: JavaScript numbers are
modelled as rationals (`ℚ`), `Math.round` as `jsRound` (floor of `x + 1/2`,
which is JavaScript's round-half-up), timestamps (`Date` values) as integer
milliseconds (`ℤ`), and the wall clock readings the source obtains via
`new Date()` / `setMonth` are passed as explicit arguments.  Display-only
string formatting (`toFixed`) is rendered by simple helpers.
-/

namespace ContributorQuality

/-- JavaScript `Math.round`: rounds half up (toward positive infinity). -/
def jsRound (x : ℚ) : ℤ := ⌊x + 1/2⌋

/-- Display helper standing for JavaScript `toFixed(0)` (display-only). -/
def toFixed0 (x : ℚ) : String := toString (jsRound x)

/-- Display helper standing for JavaScript `toFixed(1)` (display-only). -/
def toFixed1 (x : ℚ) : String :=
  let n := jsRound (x * 10)
  toString (n / 10) ++ "." ++ toString (n.natAbs % 10)

/-! ### `src/types/scoring.ts` — SCORING_CONSTANTS -/

/-- Baseline score for all users (`SCORING_CONSTANTS.BASELINE_SCORE`). -/
def BASELINE_SCORE : ℚ := 500

/-- Maximum possible score (`SCORING_CONSTANTS.MAX_SCORE`). -/
def MAX_SCORE : ℤ := 1000

/-- Minimum possible score (`SCORING_CONSTANTS.MIN_SCORE`). -/
def MIN_SCORE : ℤ := 0

/-- Minimum decay factor (`SCORING_CONSTANTS.MIN_DECAY_FACTOR = 0.8`). -/
def MIN_DECAY_FACTOR : ℚ := 4/5

/-- Maximum decay factor (`SCORING_CONSTANTS.MAX_DECAY_FACTOR = 1.0`). -/
def MAX_DECAY_FACTOR : ℚ := 1

/-- Minimum contributions for sufficient data
(`SCORING_CONSTANTS.MIN_CONTRIBUTIONS_FOR_DATA`). -/
def MIN_CONTRIBUTIONS_FOR_DATA : ℕ := 5

/-! ### `src/scoring/decay.ts` -/

/-- `calculateDecayFactor` from `src/scoring/decay.ts`.  The source computes
`recentThreshold` as `now` with the month decremented by
`RECENT_ACTIVITY_MONTHS = 3` (calendar arithmetic); that instant is passed
here explicitly.  Dates are integer timestamps. -/
def calculateDecayFactor (recentThreshold : ℤ) (activityDates : List ℤ) : ℚ :=
  if activityDates.length = 0 then
    -- No activity = no decay (stay at baseline)
    MAX_DECAY_FACTOR
  else
    let recentActivity := (activityDates.filter (fun d => decide (recentThreshold ≤ d))).length
    let totalActivity := activityDates.length
    let recencyRatio : ℚ := (recentActivity : ℚ) / (totalActivity : ℚ)
    let decayRange := MAX_DECAY_FACTOR - MIN_DECAY_FACTOR
    MIN_DECAY_FACTOR + recencyRatio * decayRange

/-- `applyDecayTowardBaseline` from `src/scoring/decay.ts`. -/
def applyDecayTowardBaseline (score : ℚ) (decayFactor : ℚ) : ℤ :=
  let distanceFromBaseline := score - BASELINE_SCORE
  let decayedDistance := distanceFromBaseline * decayFactor
  jsRound (BASELINE_SCORE + decayedDistance)

/-! ### `src/scoring/normalizer.ts` -/

/-- `normalizeScore` from `src/scoring/normalizer.ts`: weighted sum (0-100)
rescaled to the 0-1000 scale. -/
def normalizeScore (weightedSum : ℚ) : ℤ := jsRound (weightedSum * 10)

/-! ### `src/types/metrics.ts` — data structures -/

/-- `MetricResult` from `src/types/metrics.ts`. -/
structure MetricResult where
  name : String
  rawValue : ℚ
  normalizedScore : ℚ
  weightedScore : ℚ
  weight : ℚ
  details : String
  dataPoints : ℕ
deriving DecidableEq, Repr

/-- `PRHistoryData` from `src/types/metrics.ts`. -/
structure PRHistoryData where
  totalPRs : ℕ
  mergedPRs : ℕ
  closedWithoutMerge : ℕ
  openPRs : ℕ
  mergeRate : ℚ
  averagePRSize : ℚ
  veryShortPRs : ℕ
  mergedPRDates : List ℤ
deriving DecidableEq, Repr

/-- `RepoContribution` from `src/types/metrics.ts`. -/
structure RepoContribution where
  owner : String
  repo : String
  stars : ℕ
  mergedPRCount : ℕ
deriving DecidableEq, Repr

/-- `RepoQualityData` from `src/types/metrics.ts`. -/
structure RepoQualityData where
  contributedRepos : List RepoContribution
  qualityRepoCount : ℕ
  averageRepoStars : ℚ
  highestStarRepo : ℕ
deriving DecidableEq, Repr

/-- `ReactionData` from `src/types/metrics.ts`. -/
structure ReactionData where
  totalComments : ℕ
  positiveReactions : ℕ
  negativeReactions : ℕ
  neutralReactions : ℕ
  positiveRatio : ℚ
deriving DecidableEq, Repr

/-- `AccountData` from `src/types/metrics.ts` (dates as integer
timestamps in milliseconds). -/
structure AccountData where
  createdAt : ℤ
  ageInDays : ℤ
  monthsWithActivity : ℕ
  totalMonthsInWindow : ℕ
  consistencyScore : ℚ
deriving DecidableEq, Repr

/-- `IssueEngagementData` from `src/types/metrics.ts`. -/
structure IssueEngagementData where
  issuesCreated : ℕ
  issuesWithComments : ℕ
  issuesWithReactions : ℕ
  averageCommentsPerIssue : ℚ
deriving DecidableEq, Repr

/-- `CodeReviewData` from `src/types/metrics.ts`. -/
structure CodeReviewData where
  reviewsGiven : ℕ
  reviewCommentsGiven : ℕ
  reviewedRepos : List String
deriving DecidableEq, Repr

/-- `AllMetricsData` from `src/types/metrics.ts`. -/
structure AllMetricsData where
  prHistory : PRHistoryData
  repoQuality : RepoQualityData
  reactions : ReactionData
  account : AccountData
  issueEngagement : IssueEngagementData
  codeReviews : CodeReviewData
deriving DecidableEq, Repr

/-- `POSITIVE_REACTIONS` from `src/types/metrics.ts`. -/
def POSITIVE_REACTIONS : List String := ["+1", "heart", "rocket", "hooray"]

/-- `NEGATIVE_REACTIONS` from `src/types/metrics.ts`. -/
def NEGATIVE_REACTIONS : List String := ["-1", "confused"]

/-! ### `src/metrics/spam-detection.ts` -/

/-- Penalty kinds of `SpamPenalty` from `src/metrics/spam-detection.ts`. -/
inductive SpamPenaltyType where
  | shortPRs
  | burstClosed
  | newAccountBurst
deriving DecidableEq, Repr

/-- `SpamPenalty` from `src/metrics/spam-detection.ts`. -/
structure SpamPenalty where
  type : SpamPenaltyType
  penalty : ℚ
  reason : String
deriving DecidableEq, Repr

/-- `detectSpamPatterns` from `src/metrics/spam-detection.ts` (thresholds
`SPAM_THRESHOLDS` inlined: short-PR ratio 0.7, burst closed count 10,
burst merge rate 0.2, new-account days 7, new-account PR count 5). -/
def detectSpamPatterns (prHistory : PRHistoryData) (account : AccountData) :
    List SpamPenalty :=
  let shortPens : List SpamPenalty :=
    if 0 < prHistory.totalPRs then
      let shortPRRatio : ℚ := (prHistory.veryShortPRs : ℚ) / (prHistory.totalPRs : ℚ)
      if 7/10 ≤ shortPRRatio then
        [{ type := .shortPRs,
           penalty := min (50 + (shortPRRatio - 7/10) * 100) 75,
           reason := toFixed0 (shortPRRatio * 100) ++
             "% of PRs have fewer than 10 lines changed" }]
      else []
    else []
  let burstPens : List SpamPenalty :=
    if 10 ≤ prHistory.closedWithoutMerge ∧ prHistory.mergeRate < 1/5 then
      [{ type := .burstClosed,
         penalty := min (50 + (prHistory.closedWithoutMerge : ℚ) * 2) 75,
         reason := toString prHistory.closedWithoutMerge ++
           " PRs closed without merge (" ++ toFixed0 (prHistory.mergeRate * 100) ++
           "% merge rate)" }]
    else []
  let newAccountPens : List SpamPenalty :=
    if account.ageInDays < 7 ∧ 5 < prHistory.totalPRs then
      [{ type := .newAccountBurst,
         penalty := 30,
         reason := "New account (" ++ toString account.ageInDays ++ " days) with " ++
           toString prHistory.totalPRs ++ " PRs" }]
    else []
  shortPens ++ burstPens ++ newAccountPens

/-- `calculateSpamPenalty` from `src/metrics/spam-detection.ts`:
sum of penalties, capped at 150 points total. -/
def calculateSpamPenalty (penalties : List SpamPenalty) : ℚ :=
  let total := penalties.foldl (fun sum p => sum + p.penalty) 0
  min total 150

/-! ### `src/types/github.ts` — raw snapshot data (shallowly embedded) -/

/-- Pull-request state strings of the GraphQL schema. -/
inductive PRState where
  | OPEN
  | CLOSED
  | MERGED
deriving DecidableEq, Repr

/-- Target repository of a pull request (`repository` field of a PR node). -/
structure Repository where
  owner : String
  name : String
  stargazerCount : ℕ
deriving DecidableEq, Repr

/-- A pull-request node of the GraphQL response; timestamps are integer
milliseconds, a deleted/private target repository is `none`. -/
structure PullRequest where
  state : PRState
  merged : Bool
  createdAt : ℤ
  mergedAt : Option ℤ
  additions : ℕ
  deletions : ℕ
  repository : Option Repository
deriving DecidableEq, Repr

/-- A comment node with the contents of its reactions. -/
structure CommentNode where
  reactions : List String
deriving DecidableEq, Repr

/-- An issue node with its comment and reaction tallies. -/
structure IssueNode where
  createdAt : ℤ
  commentsTotalCount : ℕ
  reactionsTotalCount : ℕ
deriving DecidableEq, Repr

/-- One day of the contribution calendar; the source stores the date as a
string `YYYY-MM-DD` and extracts year and month from it. -/
structure ContributionDay where
  year : ℕ
  month : ℕ
  day : ℕ
  contributionCount : ℕ
deriving DecidableEq, Repr

/-- One week of the contribution calendar. -/
structure CalendarWeek where
  contributionDays : List ContributionDay
deriving DecidableEq, Repr

/-- The user part of `GraphQLContributorData`. -/
structure UserData where
  login : String
  createdAt : ℤ
  pullRequests : List PullRequest
  calendarWeeks : List CalendarWeek
  pullRequestReviewContributions : ℕ
  issueComments : List CommentNode
  issues : List IssueNode
deriving DecidableEq, Repr

/-- `GraphQLContributorData` from `src/types/github.ts`. -/
structure GraphQLContributorData where
  user : UserData
deriving DecidableEq, Repr

/-! ### `src/metrics/pr-history.ts` -/

/-- `extractPRHistoryData` from `src/metrics/pr-history.ts`
(`VERY_SHORT_PR_THRESHOLD = 10` inlined). -/
def extractPRHistoryData (data : GraphQLContributorData) (sinceDate : ℤ) :
    PRHistoryData :=
  let prs := data.user.pullRequests.filter (fun pr => decide (sinceDate ≤ pr.createdAt))
  let mergedPRs := prs.filter (fun pr => pr.merged)
  let closedWithoutMerge := prs.filter (fun pr => pr.state == .CLOSED && !pr.merged)
  let openPRs := prs.filter (fun pr => pr.state == .OPEN)
  let totalLines := prs.foldl (fun sum pr => sum + pr.additions + pr.deletions) (0 : ℕ)
  let averagePRSize : ℚ :=
    if 0 < prs.length then (totalLines : ℚ) / (prs.length : ℚ) else 0
  let veryShortPRs := (prs.filter (fun pr => decide (pr.additions + pr.deletions < 10))).length
  let mergedPRDates := (mergedPRs.filter (fun pr => pr.mergedAt.isSome)).filterMap (·.mergedAt)
  -- Calculate merge rate only from resolved PRs (not open ones)
  let resolvedPRs := mergedPRs.length + closedWithoutMerge.length
  let mergeRate : ℚ :=
    if 0 < resolvedPRs then (mergedPRs.length : ℚ) / (resolvedPRs : ℚ) else 0
  { totalPRs := prs.length
    mergedPRs := mergedPRs.length
    closedWithoutMerge := closedWithoutMerge.length
    openPRs := openPRs.length
    mergeRate := mergeRate
    averagePRSize := averagePRSize
    veryShortPRs := veryShortPRs
    mergedPRDates := mergedPRDates }

/-- `calculatePRHistoryMetric` from `src/metrics/pr-history.ts`. -/
def calculatePRHistoryMetric (data : PRHistoryData) (weight : ℚ) : MetricResult :=
  -- No data = neutral score
  if data.totalPRs = 0 then
    { name := "prMergeRate"
      rawValue := 0
      normalizedScore := 50
      weightedScore := 50 * weight
      weight := weight
      details := "No PR history found in analysis window"
      dataPoints := 0 }
  else
    let mergeRate := data.mergeRate
    let ratioText := toFixed1 (mergeRate * 100) ++ "% (" ++ toString data.mergedPRs ++
      "/" ++ toString (data.mergedPRs + data.closedWithoutMerge) ++ " PRs merged)"
    let normalizedScore : ℚ :=
      if 9/10 ≤ mergeRate then 100
      else if 7/10 ≤ mergeRate then 50 + ((mergeRate - 7/10) / (1/5)) * 50
      else if 3/10 ≤ mergeRate then 50
      else (mergeRate / (3/10)) * 50
    let details :=
      if 9/10 ≤ mergeRate then "Excellent merge rate: " ++ ratioText
      else if 7/10 ≤ mergeRate then "Good merge rate: " ++ ratioText
      else if 3/10 ≤ mergeRate then "Average merge rate: " ++ ratioText
      else "Low merge rate: " ++ ratioText
    { name := "prMergeRate"
      rawValue := mergeRate
      normalizedScore := normalizedScore
      weightedScore := normalizedScore * weight
      weight := weight
      details := details
      dataPoints := data.totalPRs }

/-! ### `src/metrics/repo-quality.ts` -/

/-- One step of the `repoMap` grouping loop of `extractRepoQualityData`:
a new repository key is appended with the pull request's star count and
count 1; an existing key only has its merged-PR count incremented (the JS
`Map` preserves insertion order, modelled by an ordered list). -/
def insertRepoContribution (m : List RepoContribution) (r : Repository) :
    List RepoContribution :=
  if m.any (fun c => c.owner == r.owner && c.repo == r.name) then
    m.map (fun c =>
      if c.owner == r.owner && c.repo == r.name then
        { c with mergedPRCount := c.mergedPRCount + 1 }
      else c)
  else
    m ++ [{ owner := r.owner, repo := r.name, stars := r.stargazerCount,
            mergedPRCount := 1 }]

/-- `extractRepoQualityData` from `src/metrics/repo-quality.ts`. -/
def extractRepoQualityData (data : GraphQLContributorData) (minimumStars : ℕ)
    (sinceDate : ℤ) : RepoQualityData :=
  let mergedPRs := data.user.pullRequests.filter (fun pr =>
    pr.merged &&
      match pr.mergedAt, pr.repository with
      | some mergedDate, some _ => decide (sinceDate ≤ mergedDate)
      | _, _ => false)
  let contributedRepos := mergedPRs.foldl (fun m pr =>
    match pr.repository with
    | some r => insertRepoContribution m r
    | none => m) []
  let qualityRepos := contributedRepos.filter (fun r => decide (minimumStars ≤ r.stars))
  let totalStars := contributedRepos.foldl (fun sum r => sum + r.stars) (0 : ℕ)
  let averageRepoStars : ℚ :=
    if 0 < contributedRepos.length then (totalStars : ℚ) / (contributedRepos.length : ℚ)
    else 0
  let highestStarRepo :=
    if 0 < contributedRepos.length then
      (contributedRepos.map (·.stars)).foldl max 0
    else 0
  { contributedRepos := contributedRepos
    qualityRepoCount := qualityRepos.length
    averageRepoStars := averageRepoStars
    highestStarRepo := highestStarRepo }

/-- `calculateRepoQualityMetric` from `src/metrics/repo-quality.ts`. -/
def calculateRepoQualityMetric (data : RepoQualityData) (weight : ℚ)
    (minimumStars : ℕ) : MetricResult :=
  let qualityCount := data.qualityRepoCount
  let normalizedScore : ℚ :=
    if qualityCount = 0 then 50
    else if 10 ≤ qualityCount then 100
    else if 5 ≤ qualityCount then 75
    else if 2 ≤ qualityCount then 65
    else 55
  let baseDetails :=
    if qualityCount = 0 then
      if data.contributedRepos.length = 0 then "No merged PRs found in analysis window"
      else "Contributed to " ++ toString data.contributedRepos.length ++
        " repos, none with " ++ toString minimumStars ++ "+ stars"
    else if 10 ≤ qualityCount then
      "Excellent: Merged PRs in " ++ toString qualityCount ++ " repos with " ++
        toString minimumStars ++ "+ stars"
    else if 5 ≤ qualityCount then
      "Good: Merged PRs in " ++ toString qualityCount ++ " repos with " ++
        toString minimumStars ++ "+ stars"
    else if 2 ≤ qualityCount then
      "Moderate: Merged PRs in " ++ toString qualityCount ++ " repos with " ++
        toString minimumStars ++ "+ stars"
    else
      "Some quality contributions: Merged PR in " ++ toString qualityCount ++
        " repo with " ++ toString minimumStars ++ "+ stars"
  let details :=
    if 1000 ≤ data.highestStarRepo then
      baseDetails ++ ". Highest: " ++ toString data.highestStarRepo ++ " stars"
    else baseDetails
  { name := "repoQuality"
    rawValue := qualityCount
    normalizedScore := normalizedScore
    weightedScore := normalizedScore * weight
    weight := weight
    details := details
    dataPoints := data.contributedRepos.length }

/-! ### `src/metrics/reactions.ts` -/

/-- `extractReactionData` from `src/metrics/reactions.ts`: partitions every
reaction on the user's comments into positive/negative/neutral, with a
neutral positive ratio of 0.5 when there are no reactions. -/
def extractReactionData (data : GraphQLContributorData) : ReactionData :=
  let comments := data.user.issueComments
  let allReactions := comments.foldl (fun acc c => acc ++ c.reactions) []
  let positiveCount := (allReactions.filter (fun c => POSITIVE_REACTIONS.contains c)).length
  let negativeCount := (allReactions.filter (fun c =>
    !POSITIVE_REACTIONS.contains c && NEGATIVE_REACTIONS.contains c)).length
  let neutralCount := (allReactions.filter (fun c =>
    !POSITIVE_REACTIONS.contains c && !NEGATIVE_REACTIONS.contains c)).length
  let totalReactions := positiveCount + negativeCount + neutralCount
  let positiveRatio : ℚ :=
    if 0 < totalReactions then (positiveCount : ℚ) / (totalReactions : ℚ) else 1/2
  { totalComments := comments.length
    positiveReactions := positiveCount
    negativeReactions := negativeCount
    neutralReactions := neutralCount
    positiveRatio := positiveRatio }

/-- Modelled from the spec: the source file implementing
`calculatePositiveReactionsMetric` is not in the snapshot (only its module
export in `src/metrics/index.ts`, its caller in `src/scoring/engine.ts` and
its tests are).  Curve per spec §4.2 "Positive reactions": fewer than 5
total reactions → 50 (insufficient data); ratio ≥ 0.8 → 100; [0.6, 0.8) →
75; [0.4, 0.6) → 50; < 0.4 → linear 0→50; corroborated by the test file
(a ratio of 0.2 scores 25). -/
def calculatePositiveReactionsMetric (data : ReactionData) (weight : ℚ) :
    MetricResult :=
  let totalReactions := data.positiveReactions + data.negativeReactions +
    data.neutralReactions
  if totalReactions < 5 then
    { name := "positiveReactions"
      rawValue := data.positiveRatio
      normalizedScore := 50
      weightedScore := 50 * weight
      weight := weight
      details := "Insufficient reaction data"
      dataPoints := data.totalComments }
  else
    let ratio := data.positiveRatio
    let normalizedScore : ℚ :=
      if 4/5 ≤ ratio then 100
      else if 3/5 ≤ ratio then 75
      else if 2/5 ≤ ratio then 50
      else (ratio / (2/5)) * 50
    let details :=
      if 4/5 ≤ ratio then "Excellent reception: " ++ toFixed0 (ratio * 100) ++ "% positive"
      else if 3/5 ≤ ratio then "Good reception: " ++ toFixed0 (ratio * 100) ++ "% positive"
      else if 2/5 ≤ ratio then "Mixed reception: " ++ toFixed0 (ratio * 100) ++ "% positive"
      else "Poor reception: " ++ toFixed0 (ratio * 100) ++ "% positive"
    { name := "positiveReactions"
      rawValue := ratio
      normalizedScore := normalizedScore
      weightedScore := normalizedScore * weight
      weight := weight
      details := details
      dataPoints := data.totalComments }

/-- Modelled from the spec: the source file implementing
`calculateNegativeReactionsMetric` is not in the snapshot (only its module
export, caller and tests are).  Curve per spec §4.2 "Negative reactions
(penalty-style)": fewer than 5 total reactions → 50; negative share < 10%
→ 50 (no penalty); [10, 20)% → 40; [20, 30)% → 25; ≥ 30% → linear down to
0 (taken here as the line from 25 at 30% to 0 at 100%, which matches the
test's only assertion that such inputs score below 25). -/
def calculateNegativeReactionsMetric (data : ReactionData) (weight : ℚ) :
    MetricResult :=
  let totalReactions := data.positiveReactions + data.negativeReactions +
    data.neutralReactions
  if totalReactions < 5 then
    { name := "negativeReactions"
      rawValue := 0
      normalizedScore := 50
      weightedScore := 50 * weight
      weight := weight
      details := "Insufficient reaction data"
      dataPoints := data.totalComments }
  else
    let negativeRatio : ℚ := (data.negativeReactions : ℚ) / (totalReactions : ℚ)
    let normalizedScore : ℚ :=
      if negativeRatio < 1/10 then 50
      else if negativeRatio < 1/5 then 40
      else if negativeRatio < 3/10 then 25
      else max 0 (25 * (1 - (negativeRatio - 3/10) / (7/10)))
    let details :=
      if negativeRatio < 1/10 then "Low negative reactions"
      else if negativeRatio < 1/5 then "Some negative reactions"
      else if negativeRatio < 3/10 then "Notable negative reactions"
      else "High negative reactions"
    { name := "negativeReactions"
      rawValue := negativeRatio
      normalizedScore := normalizedScore
      weightedScore := normalizedScore * weight
      weight := weight
      details := details
      dataPoints := data.totalComments }

/-! ### `src/metrics/account-age.ts` -/

/-- `extractAccountData` from `src/metrics/account-age.ts`.  The source
reads the clock via `new Date()`; that instant is passed here explicitly
as `now` (milliseconds).  `ageInDays` is the floored day difference. -/
def extractAccountData (data : GraphQLContributorData)
    (analysisWindowMonths : ℕ) (now : ℤ) : AccountData :=
  let createdAt := data.user.createdAt
  let ageInDays : ℤ := ⌊((now - createdAt : ℤ) : ℚ) / (1000 * 60 * 60 * 24)⌋
  -- Distinct year-month pairs with activity (the JS Set of "year-month" keys)
  let allDays := data.user.calendarWeeks.foldl (fun acc w => acc ++ w.contributionDays) []
  let monthsWithActivity :=
    ((allDays.filter (fun d => decide (0 < d.contributionCount))).map
      (fun d => (d.year, d.month))).dedup
  let totalMonthsInWindow := min analysisWindowMonths 12
  let activeMonths := monthsWithActivity.length
  let consistencyScore : ℚ :=
    if 0 < totalMonthsInWindow then (activeMonths : ℚ) / (totalMonthsInWindow : ℚ) else 0
  { createdAt := createdAt
    ageInDays := ageInDays
    monthsWithActivity := activeMonths
    totalMonthsInWindow := totalMonthsInWindow
    consistencyScore := consistencyScore }

/-- `calculateAccountAgeMetric` from `src/metrics/account-age.ts`. -/
def calculateAccountAgeMetric (data : AccountData) (weight : ℚ) : MetricResult :=
  let normalizedScore : ℚ :=
    if 365 ≤ data.ageInDays then 100
    else if 180 ≤ data.ageInDays then 75
    else if 90 ≤ data.ageInDays then 60
    else if 30 ≤ data.ageInDays then 55
    else 50
  let details :=
    if 365 ≤ data.ageInDays then
      "Established account: " ++ toString (data.ageInDays / 365) ++ "+ years old"
    else if 180 ≤ data.ageInDays then
      "Mature account: " ++ toString (data.ageInDays / 30) ++ " months old"
    else if 90 ≤ data.ageInDays then
      "Account age: " ++ toString (data.ageInDays / 30) ++ " months old"
    else if 30 ≤ data.ageInDays then
      "Recent account: " ++ toString data.ageInDays ++ " days old"
    else "New account: " ++ toString data.ageInDays ++ " days old"
  { name := "accountAge"
    rawValue := data.ageInDays
    normalizedScore := normalizedScore
    weightedScore := normalizedScore * weight
    weight := weight
    details := details
    dataPoints := 1 }

/-- `calculateActivityConsistencyMetric` from `src/metrics/account-age.ts`.
For accounts younger than the analysis window, expectations are adjusted:
`effectiveMonths = min(totalMonthsInWindow, ceil(ageInDays / 30))`. -/
def calculateActivityConsistencyMetric (data : AccountData) (weight : ℚ) :
    MetricResult :=
  let activeMonths := data.monthsWithActivity
  let totalMonths := data.totalMonthsInWindow
  let effectiveMonths : ℤ := min (totalMonths : ℤ) ⌈(data.ageInDays : ℚ) / 30⌉
  let normalizedScore : ℚ :=
    if effectiveMonths = 0 then 50
    else
      let ratio : ℚ := (activeMonths : ℚ) / (effectiveMonths : ℚ)
      if 9/10 ≤ ratio then 100
      else if 7/10 ≤ ratio then 85
      else if 1/2 ≤ ratio then 70
      else if 1/4 ≤ ratio then 55
      else 50
  let details :=
    if effectiveMonths = 0 then "Account too new to evaluate consistency"
    else "Active in " ++ toString activeMonths ++ "/" ++ toString effectiveMonths ++
      " months"
  { name := "activityConsistency"
    rawValue := data.consistencyScore
    normalizedScore := normalizedScore
    weightedScore := normalizedScore * weight
    weight := weight
    details := details
    dataPoints := activeMonths }

/-- `isNewAccount` from `src/metrics/account-age.ts`. -/
def isNewAccount (data : AccountData) (thresholdDays : ℤ) : Bool :=
  data.ageInDays < thresholdDays

/-! ### `src/metrics/issue-engagement.ts` -/

/-- `extractIssueEngagementData` from `src/metrics/issue-engagement.ts`. -/
def extractIssueEngagementData (data : GraphQLContributorData) (sinceDate : ℤ) :
    IssueEngagementData :=
  let issues := data.user.issues.filter (fun issue => decide (sinceDate ≤ issue.createdAt))
  let issuesWithComments := (issues.filter (fun issue =>
    decide (0 < issue.commentsTotalCount))).length
  let issuesWithReactions := (issues.filter (fun issue =>
    decide (0 < issue.reactionsTotalCount))).length
  let totalComments := issues.foldl (fun sum issue => sum + issue.commentsTotalCount) (0 : ℕ)
  let averageCommentsPerIssue : ℚ :=
    if 0 < issues.length then (totalComments : ℚ) / (issues.length : ℚ) else 0
  { issuesCreated := issues.length
    issuesWithComments := issuesWithComments
    issuesWithReactions := issuesWithReactions
    averageCommentsPerIssue := averageCommentsPerIssue }

/-- `calculateIssueEngagementMetric` from `src/metrics/issue-engagement.ts`. -/
def calculateIssueEngagementMetric (data : IssueEngagementData) (weight : ℚ) :
    MetricResult :=
  -- No issues = neutral
  if data.issuesCreated = 0 then
    { name := "issueEngagement"
      rawValue := 0
      normalizedScore := 50
      weightedScore := 50 * weight
      weight := weight
      details := "No issues created in analysis window"
      dataPoints := 0 }
  else
    let engagedIssues := max data.issuesWithComments data.issuesWithReactions
    let engagementRate : ℚ := (engagedIssues : ℚ) / (data.issuesCreated : ℚ)
    let normalizedScore : ℚ :=
      if 7/10 ≤ engagementRate ∧ 3 ≤ data.issuesCreated then 100
      else if 1/2 ≤ engagementRate ∧ 2 ≤ data.issuesCreated then 75
      else if 3/10 ≤ engagementRate then 60
      else 50
    let ratioText := toString engagedIssues ++ "/" ++ toString data.issuesCreated ++
      " issues received responses"
    let baseDetails :=
      if 7/10 ≤ engagementRate ∧ 3 ≤ data.issuesCreated then "High engagement: " ++ ratioText
      else if 1/2 ≤ engagementRate ∧ 2 ≤ data.issuesCreated then "Good engagement: " ++ ratioText
      else if 3/10 ≤ engagementRate then "Some engagement: " ++ ratioText
      else "Low engagement: " ++ ratioText
    let details :=
      if 3 ≤ data.averageCommentsPerIssue then
        baseDetails ++ ". Avg " ++ toFixed1 data.averageCommentsPerIssue ++ " comments/issue"
      else baseDetails
    { name := "issueEngagement"
      rawValue := engagementRate
      normalizedScore := normalizedScore
      weightedScore := normalizedScore * weight
      weight := weight
      details := details
      dataPoints := data.issuesCreated }

/-! ### `src/metrics/code-review.ts` -/

/-- `extractCodeReviewData` from `src/metrics/code-review.ts`. -/
def extractCodeReviewData (data : GraphQLContributorData) : CodeReviewData :=
  let reviewCount := data.user.pullRequestReviewContributions
  let estimatedComments := reviewCount / 2
  { reviewsGiven := reviewCount
    reviewCommentsGiven := estimatedComments
    reviewedRepos := [] }

/-- `calculateCodeReviewMetric` from `src/metrics/code-review.ts`. -/
def calculateCodeReviewMetric (data : CodeReviewData) (weight : ℚ) : MetricResult :=
  let reviews := data.reviewsGiven
  let normalizedScore : ℚ :=
    if reviews = 0 then 50
    else if 20 ≤ reviews then 100
    else if 10 ≤ reviews then 80
    else if 5 ≤ reviews then 65
    else 55
  let details :=
    if reviews = 0 then "No code reviews given in analysis window"
    else if 20 ≤ reviews then "Excellent reviewer: " ++ toString reviews ++ " code reviews given"
    else if 10 ≤ reviews then "Active reviewer: " ++ toString reviews ++ " code reviews given"
    else if 5 ≤ reviews then "Some reviews: " ++ toString reviews ++ " code reviews given"
    else "Few reviews: " ++ toString reviews ++ " code reviews given"
  { name := "codeReviews"
    rawValue := reviews
    normalizedScore := normalizedScore
    weightedScore := normalizedScore * weight
    weight := weight
    details := details
    dataPoints := reviews }

/-! ### `src/types/config.ts` — weighted-scoring configuration -/

/-- `MetricWeights` from `src/types/config.ts` (weighted-model variant). -/
structure MetricWeights where
  prMergeRate : ℚ
  repoQuality : ℚ
  positiveReactions : ℚ
  negativeReactions : ℚ
  accountAge : ℚ
  activityConsistency : ℚ
  issueEngagement : ℚ
  codeReviews : ℚ
deriving DecidableEq, Repr

/-- The fields of `ContributorQualityConfig` (weighted-model variant) that
the scoring core reads; platform-token and side-effect settings are not
part of the scoring computation. -/
structure ContributorQualityConfig where
  minimumScore : ℤ
  minimumStars : ℕ
  analysisWindowMonths : ℕ
  weights : MetricWeights
  newAccountThresholdDays : ℤ
deriving DecidableEq, Repr

/-- `ScoringResult` from `src/types/scoring.ts` (dates as integer
timestamps; `isTrustedUser`/`wasWhitelisted` are set to `false` by
`calculateScore` itself). -/
structure ScoringResult where
  score : ℤ
  rawScore : ℤ
  decayFactor : ℚ
  passed : Bool
  threshold : ℤ
  metrics : List MetricResult
  username : String
  analyzedAt : ℤ
  dataWindowStart : ℤ
  dataWindowEnd : ℤ
  totalDataPoints : ℕ
  recommendations : List String
  isNewAccount : Bool
  hasLimitedData : Bool
  isTrustedUser : Bool
  wasWhitelisted : Bool
deriving DecidableEq, Repr

/-! ### `src/scoring/engine.ts` -/

/-- `extractAllMetrics` from `src/scoring/engine.ts`; `now` is the wall
clock reading the account extractor obtains via `new Date()`. -/
def extractAllMetrics (data : GraphQLContributorData)
    (config : ContributorQualityConfig) (sinceDate now : ℤ) : AllMetricsData :=
  { prHistory := extractPRHistoryData data sinceDate
    repoQuality := extractRepoQualityData data config.minimumStars sinceDate
    reactions := extractReactionData data
    account := extractAccountData data config.analysisWindowMonths now
    issueEngagement := extractIssueEngagementData data sinceDate
    codeReviews := extractCodeReviewData data }

/-- `calculateAllMetrics` from `src/scoring/engine.ts`. -/
def calculateAllMetrics (metricsData : AllMetricsData)
    (config : ContributorQualityConfig) : List MetricResult :=
  let weights := config.weights
  [ calculatePRHistoryMetric metricsData.prHistory weights.prMergeRate,
    calculateRepoQualityMetric metricsData.repoQuality weights.repoQuality
      config.minimumStars,
    calculatePositiveReactionsMetric metricsData.reactions weights.positiveReactions,
    calculateNegativeReactionsMetric metricsData.reactions weights.negativeReactions,
    calculateAccountAgeMetric metricsData.account weights.accountAge,
    calculateActivityConsistencyMetric metricsData.account weights.activityConsistency,
    calculateIssueEngagementMetric metricsData.issueEngagement weights.issueEngagement,
    calculateCodeReviewMetric metricsData.codeReviews weights.codeReviews ]

/-- Fixed recommendation message for a low merge rate. -/
def MSG_PR_MERGE_RATE : String :=
  "Improve PR quality to increase merge rate. Focus on smaller, well-documented changes."

/-- Fixed recommendation message for no quality-repo contributions. -/
def MSG_REPO_QUALITY : String :=
  "Consider contributing to established open source projects with significant community adoption."

/-- Fixed recommendation message for low code-review activity. -/
def MSG_CODE_REVIEWS : String :=
  "Participate in code reviews to demonstrate engagement with the community."

/-- Fixed recommendation message for negative reactions. -/
def MSG_NEGATIVE_REACTIONS : String :=
  "Focus on constructive communication to improve community reception."

/-- Fixed recommendation message for a new account. -/
def MSG_NEW_ACCOUNT : String :=
  "Continue building your contribution history. New accounts naturally have limited data."

/-- Fixed recommendation message for low activity consistency. -/
def MSG_CONSISTENCY : String :=
  "Maintain consistent activity over time to build a stronger contribution profile."

/-- Fixed fallback recommendation message for an overall low score. -/
def MSG_FALLBACK : String :=
  "Build your GitHub profile through meaningful contributions, code reviews, and community engagement."

/-- `generateRecommendations` from `src/scoring/engine.ts` (the weighted
scoring engine's version): the source pushes messages sequentially onto an
array, modelled by list concatenation in the same order. -/
def generateRecommendations (metricsData : AllMetricsData)
    (metrics : List MetricResult) (score : ℤ) : List String :=
  -- Low merge rate recommendation
  let r1 :=
    match metrics.find? (fun m => m.name == "prMergeRate") with
    | some prMetric => if prMetric.normalizedScore < 50 then [MSG_PR_MERGE_RATE] else []
    | none => []
  -- No quality repo contributions
  let r2 :=
    match metrics.find? (fun m => m.name == "repoQuality") with
    | some _ => if metricsData.repoQuality.qualityRepoCount = 0 then [MSG_REPO_QUALITY] else []
    | none => []
  -- Low code review activity
  let r3 :=
    match metrics.find? (fun m => m.name == "codeReviews") with
    | some _ => if metricsData.codeReviews.reviewsGiven < 5 then [MSG_CODE_REVIEWS] else []
    | none => []
  -- Negative reactions
  let r4 :=
    match metrics.find? (fun m => m.name == "negativeReactions") with
    | some negMetric => if negMetric.normalizedScore < 40 then [MSG_NEGATIVE_REACTIONS] else []
    | none => []
  -- New account
  let r5 := if metricsData.account.ageInDays < 30 then [MSG_NEW_ACCOUNT] else []
  -- Low activity consistency
  let r6 :=
    match metrics.find? (fun m => m.name == "activityConsistency") with
    | some consistencyMetric =>
        if consistencyMetric.normalizedScore < 60 ∧ 90 ≤ metricsData.account.ageInDays then
          [MSG_CONSISTENCY]
        else []
    | none => []
  let recommendations := r1 ++ r2 ++ r3 ++ r4 ++ r5 ++ r6
  -- Overall low score
  if score < 300 ∧ recommendations.length = 0 then recommendations ++ [MSG_FALLBACK]
  else recommendations

/-- `calculateScore` from `src/scoring/engine.ts` (the weighted scoring
engine's main function).  The source reads the clock via `new Date()` and
derives the decay recency threshold from it via `setMonth(month - 3)`
(calendar arithmetic); both instants are passed here explicitly as `now`
and `recentThreshold`. -/
def calculateScore (data : GraphQLContributorData)
    (config : ContributorQualityConfig) (sinceDate now recentThreshold : ℤ) :
    ScoringResult :=
  let username := data.user.login
  -- Extract all metrics data
  let metricsData := extractAllMetrics data config sinceDate now
  -- Calculate individual metric scores
  let metrics := calculateAllMetrics metricsData config
  -- Detect spam patterns
  let spamPatterns := detectSpamPatterns metricsData.prHistory metricsData.account
  let spamPenalty := calculateSpamPenalty spamPatterns
  -- Calculate decay factor based on activity recency
  let decayFactor := calculateDecayFactor recentThreshold metricsData.prHistory.mergedPRDates
  -- Calculate weighted score
  let weightedSum := metrics.foldl (fun sum m => sum + m.weightedScore) 0
  let rawScore := normalizeScore weightedSum
  -- Apply spam penalty first
  let scoreAfterPenalty : ℚ := (rawScore : ℚ) - spamPenalty
  -- Apply decay toward baseline
  let decayedScore := applyDecayTowardBaseline scoreAfterPenalty decayFactor
  -- Clamp to valid range
  let finalScore := max MIN_SCORE (min MAX_SCORE decayedScore)
  -- Determine pass/fail
  let passed := decide (config.minimumScore ≤ finalScore)
  -- Check account status
  let accountIsNew := isNewAccount metricsData.account config.newAccountThresholdDays
  let totalDataPoints := metrics.foldl (fun sum m => sum + m.dataPoints) 0
  let hasLimitedData := decide (totalDataPoints < MIN_CONTRIBUTIONS_FOR_DATA)
  -- Generate recommendations
  let recommendations := generateRecommendations metricsData metrics finalScore
  { score := finalScore
    rawScore := rawScore
    decayFactor := decayFactor
    passed := passed
    threshold := config.minimumScore
    metrics := metrics
    username := username
    analyzedAt := now
    dataWindowStart := sinceDate
    dataWindowEnd := now
    totalDataPoints := totalDataPoints
    recommendations := recommendations
    isNewAccount := accountIsNew
    hasLimitedData := hasLimitedData
    isTrustedUser := false
    wasWhitelisted := false }

/-! ### Concrete fixtures and auxiliary predicates used by the theorems -/

/-- Snapshot used by the C2 counterexample and witness: a contributor with
no activity whose account was created at timestamp 0. -/
def clockData : GraphQLContributorData := ⟨⟨"u", 0, [], [], 0, [], []⟩⟩

/-- Configuration used by the C2 counterexample and witness: all weight on
the account-age metric. -/
def clockConfig : ContributorQualityConfig :=
  { minimumScore := 300, minimumStars := 100, analysisWindowMonths := 12,
    weights := ⟨0, 0, 0, 0, 1, 0, 0, 0⟩, newAccountThresholdDays := 30 }

/-- Merged pull request used by the C6 witness. -/
def mrPRmerged : PullRequest := ⟨.MERGED, true, 0, some 1, 20, 0, none⟩

/-- Closed-without-merge pull request used by the C6 witness. -/
def mrPRclosed : PullRequest := ⟨.CLOSED, false, 0, none, 20, 0, none⟩

/-- Snapshot used by the C6 witness: one merged and one closed PR, giving a
merge rate of 1/2 (open PRs excluded from the ratio). -/
def mrData : GraphQLContributorData := ⟨⟨"u", 0, [mrPRmerged, mrPRclosed], [], 0, [], []⟩⟩

/-- Bool test of whether a pull request targets the repository
`owner/repo`. -/
def prTargets (pr : PullRequest) (owner repo : String) : Bool :=
  match pr.repository with
  | some r => r.owner == owner && r.name == repo
  | none => false

/-- Invariant of the `repoMap` grouping fold of `extractRepoQualityData`,
relating the accumulator to the prefix of pull requests already processed:
every entry's star count is the one of the first processed PR targeting
that repository, the accumulator has an entry for a key exactly when some
processed PR targets it, and keys are pairwise distinct. -/
def RepoGroupInv (processed : List PullRequest) (acc : List RepoContribution) : Prop :=
  (∀ c ∈ acc, ∃ pr,
      processed.find? (fun pr => prTargets pr c.owner c.repo) = some pr ∧
      pr.repository = some ⟨c.owner, c.repo, c.stars⟩) ∧
  (∀ o n, (∃ c ∈ acc, c.owner = o ∧ c.repo = n) ↔
      ∃ pr ∈ processed, prTargets pr o n = true) ∧
  acc.Pairwise (fun c₁ c₂ => ¬(c₁.owner = c₂.owner ∧ c₁.repo = c₂.repo))

/-- Merged pull request into `octo/repo` used by the C8 counterexample,
parameterized by the star count its repository node reports. -/
def starPR (stars : ℕ) : PullRequest :=
  ⟨.MERGED, true, 0, some 5, 20, 0, some ⟨"octo", "repo", stars⟩⟩

/-- Snapshot used by the C8 counterexample: two merged PRs to the same
repository whose nodes report 10 and then 1000 stars. -/
def starData : GraphQLContributorData :=
  ⟨⟨"u", 0, [starPR 10, starPR 1000], [], 0, [], []⟩⟩

/-- Trigger condition of the merge-rate recommendation: the merge-rate
metric exists and scored below 50. -/
def recCondPRMergeRate (metrics : List MetricResult) : Prop :=
  ∃ m, metrics.find? (fun m => m.name == "prMergeRate") = some m ∧
    m.normalizedScore < 50

/-- Trigger condition of the repo-quality recommendation: the metric exists
and the extracted quality-repo count is zero (regardless of its score). -/
def recCondRepoQuality (md : AllMetricsData) (metrics : List MetricResult) : Prop :=
  (∃ m, metrics.find? (fun m => m.name == "repoQuality") = some m) ∧
    md.repoQuality.qualityRepoCount = 0

/-- Trigger condition of the code-review recommendation: the metric exists
and fewer than 5 reviews were given (regardless of its score). -/
def recCondCodeReviews (md : AllMetricsData) (metrics : List MetricResult) : Prop :=
  (∃ m, metrics.find? (fun m => m.name == "codeReviews") = some m) ∧
    md.codeReviews.reviewsGiven < 5

/-- Trigger condition of the negative-reactions recommendation: the metric
exists and scored below 40 (not 50). -/
def recCondNegativeReactions (metrics : List MetricResult) : Prop :=
  ∃ m, metrics.find? (fun m => m.name == "negativeReactions") = some m ∧
    m.normalizedScore < 40

/-- Trigger condition of the new-account recommendation: account younger
than 30 days (regardless of any metric score). -/
def recCondNewAccount (md : AllMetricsData) : Prop :=
  md.account.ageInDays < 30

/-- Trigger condition of the consistency recommendation: the metric exists,
scored below 60 (not 50), and the account is at least 90 days old. -/
def recCondConsistency (md : AllMetricsData) (metrics : List MetricResult) : Prop :=
  ∃ m, metrics.find? (fun m => m.name == "activityConsistency") = some m ∧
    m.normalizedScore < 60 ∧ 90 ≤ md.account.ageInDays

/-- Metrics data used by the C9 counterexample and witness: no quality
repos, 10 reviews given, a 365-day-old account. -/
def recMetricsData : AllMetricsData :=
  { prHistory := ⟨0, 0, 0, 0, 0, 0, 0, []⟩
    repoQuality := ⟨[], 0, 0, 0⟩
    reactions := ⟨0, 0, 0, 0, 0⟩
    account := ⟨0, 365, 6, 12, 0⟩
    issueEngagement := ⟨0, 0, 0, 0⟩
    codeReviews := ⟨10, 5, []⟩ }

/-- Metric results used by the C9 counterexample and witness: every
normalized score is at or above 50. -/
def recMetrics : List MetricResult :=
  [⟨"prMergeRate", 0, 50, 50, 1, "", 0⟩,
   ⟨"repoQuality", 0, 50, 50, 1, "", 0⟩,
   ⟨"positiveReactions", 0, 50, 50, 1, "", 0⟩,
   ⟨"negativeReactions", 0, 50, 50, 1, "", 0⟩,
   ⟨"accountAge", 365, 100, 100, 1, "", 1⟩,
   ⟨"activityConsistency", 0, 70, 70, 1, "", 6⟩,
   ⟨"issueEngagement", 0, 50, 50, 1, "", 0⟩,
   ⟨"codeReviews", 10, 80, 80, 1, "", 10⟩]

/-! ## Theorems -/

/-- C5: for every list of merged-PR timestamps, the decay factor is 1.0 when
the list is empty, otherwise it equals `0.8 + recencyRatio × 0.2` where
`recencyRatio` is the count of dates at or after the recency threshold (3
months before now) divided by the count of all dates; hence the decay
factor always lies in `[0.8, 1.0]`. -/
theorem calculateDecayFactor_spec (recentThreshold : ℤ) (dates : List ℤ) :
    (dates = [] → calculateDecayFactor recentThreshold dates = 1) ∧
    (dates ≠ [] → calculateDecayFactor recentThreshold dates =
      4/5 + ((dates.filter (fun d => decide (recentThreshold ≤ d))).length : ℚ) /
        (dates.length : ℚ) * (1/5)) ∧
    4/5 ≤ calculateDecayFactor recentThreshold dates ∧
    calculateDecayFactor recentThreshold dates ≤ 1 := by
  unfold calculateDecayFactor MIN_DECAY_FACTOR MAX_DECAY_FACTOR
  rcases eq_or_ne dates [] with h | h
  · subst h
    norm_num
  · have hne : ¬ dates.length = 0 := by simpa [List.length_eq_zero] using h
    simp only [if_neg hne]
    have h0 : (0:ℚ) ≤ ((dates.filter (fun d => decide (recentThreshold ≤ d))).length : ℚ) := by
      positivity
    have hlen : (0:ℚ) < (dates.length : ℚ) := by
      exact_mod_cast Nat.pos_of_ne_zero hne
    have hle : ((dates.filter (fun d => decide (recentThreshold ≤ d))).length : ℚ) ≤
        (dates.length : ℚ) := by
      exact_mod_cast List.length_filter_le _ _
    have hr0 : (0:ℚ) ≤
        ((dates.filter (fun d => decide (recentThreshold ≤ d))).length : ℚ) /
          (dates.length : ℚ) := div_nonneg h0 hlen.le
    have hr1 : ((dates.filter (fun d => decide (recentThreshold ≤ d))).length : ℚ) /
        (dates.length : ℚ) ≤ 1 := (div_le_one hlen).mpr hle
    refine ⟨fun hc => absurd hc h, fun _ => by ring, by nlinarith, by nlinarith⟩

/-- C5 witness: two dates, one of them at or after the threshold, give a
decay factor of `0.8 + (1/2) × 0.2 = 0.9`. -/
theorem calculateDecayFactor_spec_witness :
    calculateDecayFactor 0 [1, -5] = 9/10 := by
  have h := (calculateDecayFactor_spec 0 [1, -5]).2.1 (by simp)
  rw [h]
  norm_num

/-- C10: the normalizers for repo quality, account age, activity
consistency, issue engagement, and code reviews never return a normalized
score below 50, for every input summary and every weight. -/
theorem bonus_metrics_never_below_neutral (w : ℚ) (minStars : ℕ)
    (rq : RepoQualityData) (acc : AccountData) (ie : IssueEngagementData)
    (cr : CodeReviewData) :
    50 ≤ (calculateRepoQualityMetric rq w minStars).normalizedScore ∧
    50 ≤ (calculateAccountAgeMetric acc w).normalizedScore ∧
    50 ≤ (calculateActivityConsistencyMetric acc w).normalizedScore ∧
    50 ≤ (calculateIssueEngagementMetric ie w).normalizedScore ∧
    50 ≤ (calculateCodeReviewMetric cr w).normalizedScore := by
  refine ⟨?_, ?_, ?_, ?_, ?_⟩
  · simp only [calculateRepoQualityMetric]
    split_ifs <;> norm_num
  · simp only [calculateAccountAgeMetric]
    split_ifs <;> norm_num
  · simp only [calculateActivityConsistencyMetric]
    split_ifs <;> norm_num
  · simp only [calculateIssueEngagementMetric]
    split_ifs <;> norm_num
  · simp only [calculateCodeReviewMetric]
    split_ifs <;> norm_num

/-- C7: no-data inputs give a neutral normalized score of 50 for any
weight — zero PRs for the merge-rate metric, zero comments for the two
reaction metrics, zero issues for issue engagement, zero reviews for code
reviews; none of the normalizers can fail (they are total functions). -/
theorem no_data_inputs_score_neutral (w : ℚ) :
    (∀ d : PRHistoryData, d.totalPRs = 0 →
      (calculatePRHistoryMetric d w).normalizedScore = 50) ∧
    (∀ data : GraphQLContributorData, data.user.issueComments = [] →
      (calculatePositiveReactionsMetric (extractReactionData data) w).normalizedScore = 50 ∧
      (calculateNegativeReactionsMetric (extractReactionData data) w).normalizedScore = 50) ∧
    (∀ d : IssueEngagementData, d.issuesCreated = 0 →
      (calculateIssueEngagementMetric d w).normalizedScore = 50) ∧
    (∀ d : CodeReviewData, d.reviewsGiven = 0 →
      (calculateCodeReviewMetric d w).normalizedScore = 50) := by
  refine ⟨?_, ?_, ?_, ?_⟩
  · intro d hd
    simp [calculatePRHistoryMetric, hd]
  · intro data hd
    constructor
    · simp [calculatePositiveReactionsMetric, extractReactionData, hd]
    · simp [calculateNegativeReactionsMetric, extractReactionData, hd]
  · intro d hd
    simp [calculateIssueEngagementMetric, hd]
  · intro d hd
    simp [calculateCodeReviewMetric, hd]

/-- C7 witness: concrete no-data inputs score exactly 50 at weight 1/5. -/
theorem no_data_inputs_score_neutral_witness :
    (calculatePRHistoryMetric ⟨0, 0, 0, 0, 0, 0, 0, []⟩ (1/5)).normalizedScore = 50 ∧
    (calculatePositiveReactionsMetric
      (extractReactionData ⟨⟨"u", 0, [], [], 0, [], []⟩⟩) (1/5)).normalizedScore = 50 ∧
    (calculateNegativeReactionsMetric
      (extractReactionData ⟨⟨"u", 0, [], [], 0, [], []⟩⟩) (1/5)).normalizedScore = 50 ∧
    (calculateIssueEngagementMetric ⟨0, 0, 0, 0⟩ (1/5)).normalizedScore = 50 ∧
    (calculateCodeReviewMetric ⟨0, 0, []⟩ (1/5)).normalizedScore = 50 :=
  ⟨(no_data_inputs_score_neutral (1/5)).1 _ rfl,
   ((no_data_inputs_score_neutral (1/5)).2.1 _ rfl).1,
   ((no_data_inputs_score_neutral (1/5)).2.1 _ rfl).2,
   (no_data_inputs_score_neutral (1/5)).2.2.1 _ rfl,
   (no_data_inputs_score_neutral (1/5)).2.2.2 _ rfl⟩

/-- Helper: the sum of mapped weighted scores equals the source's left fold. -/
theorem weightedScore_sum_eq_foldl (l : List MetricResult) :
    (l.map (fun m => m.weightedScore)).sum =
      l.foldl (fun sum m => sum + m.weightedScore) 0 := by
  rw [List.sum_eq_foldl, List.foldl_map]

/-- C1: the composer computes `rawScore = round(weightedSum × 10)` with
`weightedSum` the sum of the eight weighted scores, then
`scoreAfterPenalty = rawScore − min(Σ spam penalty points, 150)` (that cap
is `calculateSpamPenalty`), then
`finalScore = clamp(round(500 + (scoreAfterPenalty − 500) × decayFactor), 0, 1000)`;
in particular the final score always lies in `[0, 1000]`. -/
theorem calculateScore_composition (data : GraphQLContributorData)
    (config : ContributorQualityConfig) (sinceDate now recentThreshold : ℤ) :
    (calculateScore data config sinceDate now recentThreshold).rawScore =
      jsRound ((((calculateAllMetrics (extractAllMetrics data config sinceDate now)
        config).map (fun m => m.weightedScore)).sum) * 10) ∧
    (calculateScore data config sinceDate now recentThreshold).decayFactor =
      calculateDecayFactor recentThreshold
        (extractAllMetrics data config sinceDate now).prHistory.mergedPRDates ∧
    (calculateScore data config sinceDate now recentThreshold).score =
      max 0 (min 1000 (jsRound (500 +
        (((calculateScore data config sinceDate now recentThreshold).rawScore : ℚ) -
          calculateSpamPenalty (detectSpamPatterns
            (extractAllMetrics data config sinceDate now).prHistory
            (extractAllMetrics data config sinceDate now).account) - 500) *
        (calculateScore data config sinceDate now recentThreshold).decayFactor))) ∧
    0 ≤ (calculateScore data config sinceDate now recentThreshold).score ∧
    (calculateScore data config sinceDate now recentThreshold).score ≤ 1000 := by
  refine ⟨?_, rfl, ?_, ?_, ?_⟩
  · simp only [calculateScore, normalizeScore]
    rw [weightedScore_sum_eq_foldl]
  · simp only [calculateScore, normalizeScore, applyDecayTowardBaseline,
      BASELINE_SCORE, MIN_SCORE, MAX_SCORE]
  · simp only [calculateScore, MIN_SCORE, MAX_SCORE]
    omega
  · simp only [calculateScore, MIN_SCORE, MAX_SCORE]
    omega

/-- C2 counterexample: `calculateScore` is not a function of snapshot,
configuration and since-date alone — the source also reads the wall clock
(`new Date()`), and two runs on identical snapshot/config/since-date at
different instants (here 400 days apart) give different final scores,
because the account age and hence the account-age metric differ. -/
theorem calculateScore_clock_counterexample :
    (calculateScore clockData clockConfig 0 34560000000 0).score ≠
      (calculateScore clockData clockConfig 0 0 0).score := by
  norm_num [calculateScore, extractAllMetrics, calculateAllMetrics,
    extractPRHistoryData, calculatePRHistoryMetric,
    extractRepoQualityData, calculateRepoQualityMetric,
    extractReactionData, calculatePositiveReactionsMetric,
    calculateNegativeReactionsMetric,
    extractAccountData, calculateAccountAgeMetric,
    calculateActivityConsistencyMetric,
    extractIssueEngagementData, calculateIssueEngagementMetric,
    extractCodeReviewData, calculateCodeReviewMetric,
    detectSpamPatterns, calculateSpamPenalty, calculateDecayFactor,
    applyDecayTowardBaseline, normalizeScore, jsRound,
    BASELINE_SCORE, MIN_DECAY_FACTOR, MAX_DECAY_FACTOR, MIN_SCORE, MAX_SCORE,
    MIN_CONTRIBUTIONS_FOR_DATA, clockData, clockConfig]

/-- C2 (amended): `calculateScore` is a pure, deterministic function of its
inputs once the wall-clock readings (`now` and the derived decay recency
threshold) are counted among those inputs: any two runs on identical
snapshot, configuration, since-date and clock readings yield an identical
`ScoringResult`; there are no side effects in the embedding. -/
theorem calculateScore_deterministic (data : GraphQLContributorData)
    (config : ContributorQualityConfig) (sinceDate now recentThreshold : ℤ)
    (r₁ r₂ : ScoringResult)
    (h₁ : r₁ = calculateScore data config sinceDate now recentThreshold)
    (h₂ : r₂ = calculateScore data config sinceDate now recentThreshold) :
    r₁ = r₂ :=
  h₁.trans h₂.symm

/-- C2 witness: determinism instantiated at a concrete run. -/
theorem calculateScore_deterministic_witness :
    calculateScore clockData clockConfig 0 0 0 =
      calculateScore clockData clockConfig 0 0 0 :=
  calculateScore_deterministic clockData clockConfig 0 0 0 _ _ rfl rfl

/-- C4 counterexample: the claim fails on three counts over the actual
domain of `scoreAfterPenalty` values.  First, with factor 1.0 decay is not
the identity on the reachable fractional score `3140/7` (raw score 500
minus the short-PR penalty `50 + 10/7` at ratio 5/7): the result is
`round(3140/7) = 449 ≠ 3140/7`.  Second, a factor strictly below 1.0 need
not strictly move the score toward 500: at integer score 502 with factor
0.8 the result is `round(501.6) = 502`, unchanged.  Third, rounding can
even move a fractional score farther from 500: `3504/7 ≈ 500.57` with
factor 0.9 becomes 501, at distance 1 > 4/7. -/
theorem applyDecay_counterexample :
    (applyDecayTowardBaseline (3140/7) 1 = 449 ∧ ((449 : ℚ) ≠ 3140/7)) ∧
    ((4/5 : ℚ) < 1 ∧ applyDecayTowardBaseline 502 (4/5) = 502) ∧
    ((9/10 : ℚ) < 1 ∧ applyDecayTowardBaseline (3504/7) (9/10) = 501 ∧
      |(3504/7 : ℚ) - 500| < |(501 : ℚ) - 500|) := by
  refine ⟨⟨?_, by norm_num⟩, ⟨by norm_num, ?_⟩, ⟨by norm_num, ?_,
      by rw [abs_of_nonneg (by norm_num : (0:ℚ) ≤ 3504/7 - 500),
        abs_of_nonneg (by norm_num : (0:ℚ) ≤ (501:ℚ) - 500)]; norm_num⟩⟩ <;>
    norm_num [applyDecayTowardBaseline, jsRound, BASELINE_SCORE]

/-- C4 (amended): for every rational `scoreAfterPenalty` value, decay with
factor 1.0 yields `round(scoreAfterPenalty)` — the identity exactly on
integer scores; decay with a factor in `[0.8, 1]` never produces a result
on the opposite side of 500 (a score at or above 500 stays at or above
500, a score at or below 500 stays at or below 500), and the distance from
500 grows by at most the rounding half-point; on integer scores the
stronger properties hold: factor 1.0 is the identity, the distance from
500 never increases, and a score strictly above (below) 500 stays strictly
above (below) 500. -/
theorem applyDecayTowardBaseline_toward_baseline (s : ℚ) (f : ℚ)
    (hf₀ : 4/5 ≤ f) (hf₁ : f ≤ 1) :
    applyDecayTowardBaseline s 1 = jsRound s ∧
    (500 ≤ s → 500 ≤ applyDecayTowardBaseline s f) ∧
    (s ≤ 500 → applyDecayTowardBaseline s f ≤ 500) ∧
    |(applyDecayTowardBaseline s f : ℚ) - 500| ≤ |s - 500| + 1/2 ∧
    (∀ n : ℤ, (n : ℚ) = s →
      applyDecayTowardBaseline s 1 = n ∧
      |applyDecayTowardBaseline s f - 500| ≤ |n - 500| ∧
      (500 < n → 500 < applyDecayTowardBaseline s f) ∧
      (n < 500 → applyDecayTowardBaseline s f < 500)) := by
  have hf0 : (0 : ℚ) ≤ f := le_trans (by norm_num) hf₀
  have hone : applyDecayTowardBaseline s 1 = jsRound s := by
    simp only [applyDecayTowardBaseline, BASELINE_SCORE, jsRound]
    congr 1
    ring
  refine ⟨hone, ?_, ?_, ?_, ?_⟩
  · intro hs
    simp only [applyDecayTowardBaseline, jsRound, BASELINE_SCORE]
    rw [Int.le_floor]
    push_cast
    nlinarith [mul_nonneg (by linarith : (0:ℚ) ≤ s - 500) hf0]
  · intro hs
    simp only [applyDecayTowardBaseline, jsRound, BASELINE_SCORE]
    rw [Int.floor_le_iff]
    push_cast
    nlinarith [mul_nonneg (by linarith : (0:ℚ) ≤ 500 - s) hf0]
  · have hle := Int.floor_le ((500:ℚ) + (s - 500) * f + 1/2)
    have hgt := Int.sub_one_lt_floor ((500:ℚ) + (s - 500) * f + 1/2)
    have habs : |(s - 500) * f| ≤ |s - 500| := by
      rw [abs_mul, abs_of_nonneg hf0]
      nlinarith [abs_nonneg (s - 500)]
    have h₂ := abs_le.mp habs
    simp only [applyDecayTowardBaseline, jsRound, BASELINE_SCORE]
    rw [abs_le]
    constructor
    · nlinarith [abs_nonneg (s - 500)]
    · nlinarith [abs_nonneg (s - 500)]
  · rintro n rfl
    have hkey : ∀ g : ℚ, applyDecayTowardBaseline (n : ℚ) g =
        500 + ⌊((n - 500 : ℤ) : ℚ) * g + 1/2⌋ := by
      intro g
      simp only [applyDecayTowardBaseline, jsRound, BASELINE_SCORE]
      rw [show (500 : ℚ) + ((n : ℚ) - 500) * g + 1/2 =
        ((500 : ℤ) : ℚ) + (((n - 500 : ℤ) : ℚ) * g + 1/2) by push_cast; ring]
      rw [Int.floor_int_add]
    refine ⟨?_, ?_, ?_, ?_⟩
    · rw [hone]
      simp only [jsRound]
      rw [Int.floor_int_add]
      norm_num
    · rw [hkey f]
      rw [show (500 : ℤ) + ⌊((n - 500 : ℤ) : ℚ) * f + 1/2⌋ - 500 =
        ⌊((n - 500 : ℤ) : ℚ) * f + 1/2⌋ by ring]
      rw [abs_le]
      constructor
      · rw [Int.le_floor]
        push_cast
        rcases le_or_lt 0 ((n : ℚ) - 500) with hd | hd
        · rw [abs_of_nonneg hd]
          nlinarith [mul_nonneg hd hf0]
        · rw [abs_of_neg hd]
          nlinarith [mul_le_mul_of_nonpos_left hf₁ hd.le]
      · rw [Int.floor_le_iff]
        push_cast
        rcases le_or_lt 0 ((n : ℚ) - 500) with hd | hd
        · rw [abs_of_nonneg hd]
          nlinarith
        · rw [abs_of_neg hd]
          nlinarith [mul_nonneg (neg_nonneg.mpr hd.le) hf0]
    · intro hs
      rw [hkey f]
      have h₁ : (1 : ℚ) ≤ ((n - 500 : ℤ) : ℚ) := by
        exact_mod_cast (by omega : (1 : ℤ) ≤ n - 500)
      have : (1 : ℤ) ≤ ⌊((n - 500 : ℤ) : ℚ) * f + 1/2⌋ := by
        rw [Int.le_floor]
        have hmul : (1 : ℚ) * (4/5) ≤ ((n - 500 : ℤ) : ℚ) * f :=
          mul_le_mul h₁ hf₀ (by norm_num) (by linarith)
        push_cast
        push_cast at hmul
        linarith
      omega
    · intro hs
      rw [hkey f]
      have h₁ : ((n - 500 : ℤ) : ℚ) ≤ -1 := by
        exact_mod_cast (by omega : n - 500 ≤ (-1 : ℤ))
      have : ⌊((n - 500 : ℤ) : ℚ) * f + 1/2⌋ < 0 := by
        rw [Int.floor_lt]
        have hmul : ((n - 500 : ℤ) : ℚ) * f ≤ (-1) * f :=
          mul_le_mul_of_nonneg_right h₁ hf0
        push_cast
        push_cast at hmul
        linarith
      omega

/-- C4 witness: the amended properties at score 800 and factor 0.8 — the
factor-1.0 result is round(800) = 800, the decayed score stays above 500
within the slack bound, and the integer refinement gives the identity and
strict side preservation. -/
theorem applyDecay_toward_baseline_witness :
    ((4:ℚ)/5 ≤ 4/5 ∧ (4:ℚ)/5 ≤ 1 ∧ ((800 : ℤ) : ℚ) = (800 : ℚ)) ∧
    (500 ≤ (800 : ℚ) → 500 ≤ applyDecayTowardBaseline (800 : ℚ) (4/5)) ∧
    |(applyDecayTowardBaseline (800 : ℚ) (4/5) : ℚ) - 500| ≤ |(800 : ℚ) - 500| + 1/2 ∧
    (applyDecayTowardBaseline (800 : ℚ) 1 = (800 : ℤ) ∧
      |applyDecayTowardBaseline (800 : ℚ) (4/5) - 500| ≤ |(800 : ℤ) - 500| ∧
      (500 < (800 : ℤ) → 500 < applyDecayTowardBaseline (800 : ℚ) (4/5)) ∧
      ((800 : ℤ) < 500 → applyDecayTowardBaseline (800 : ℚ) (4/5) < 500)) :=
  ⟨⟨by norm_num, by norm_num, by norm_num⟩,
   (applyDecayTowardBaseline_toward_baseline 800 (4/5) (by norm_num) (by norm_num)).2.1,
   (applyDecayTowardBaseline_toward_baseline 800 (4/5) (by norm_num) (by norm_num)).2.2.2.1,
   (applyDecayTowardBaseline_toward_baseline 800 (4/5) (by norm_num) (by norm_num)).2.2.2.2
     800 (by norm_num)⟩

/-- C6: the extracted merge rate is `merged / (merged + closedWithoutMerge)`
(open PRs excluded), defined as 0 when the denominator is 0; given at least
one PR the normalizer maps it by the documented curve — `≥ 0.9 → 100`,
`[0.7, 0.9) →` linear from 50 to 100, `[0.3, 0.7) → 50`, `< 0.3 →` linear
from 0 to 50 — and each breakpoint (0.9, 0.7, 0.3) resolves
deterministically to the documented score. -/
theorem prMergeRate_spec (data : GraphQLContributorData) (sinceDate : ℤ) (w : ℚ) :
    ((extractPRHistoryData data sinceDate).mergeRate =
      if 0 < (extractPRHistoryData data sinceDate).mergedPRs +
          (extractPRHistoryData data sinceDate).closedWithoutMerge then
        ((extractPRHistoryData data sinceDate).mergedPRs : ℚ) /
          (((extractPRHistoryData data sinceDate).mergedPRs +
            (extractPRHistoryData data sinceDate).closedWithoutMerge : ℕ) : ℚ)
      else 0) ∧
    (0 < (extractPRHistoryData data sinceDate).totalPRs →
      (calculatePRHistoryMetric (extractPRHistoryData data sinceDate) w).normalizedScore =
        if 9/10 ≤ (extractPRHistoryData data sinceDate).mergeRate then 100
        else if 7/10 ≤ (extractPRHistoryData data sinceDate).mergeRate then
          50 + (((extractPRHistoryData data sinceDate).mergeRate - 7/10) / (1/5)) * 50
        else if 3/10 ≤ (extractPRHistoryData data sinceDate).mergeRate then 50
        else ((extractPRHistoryData data sinceDate).mergeRate / (3/10)) * 50) ∧
    (0 < (extractPRHistoryData data sinceDate).totalPRs →
      (extractPRHistoryData data sinceDate).mergeRate = 9/10 →
      (calculatePRHistoryMetric (extractPRHistoryData data sinceDate) w).normalizedScore = 100) ∧
    (0 < (extractPRHistoryData data sinceDate).totalPRs →
      (extractPRHistoryData data sinceDate).mergeRate = 7/10 →
      (calculatePRHistoryMetric (extractPRHistoryData data sinceDate) w).normalizedScore = 50) ∧
    (0 < (extractPRHistoryData data sinceDate).totalPRs →
      (extractPRHistoryData data sinceDate).mergeRate = 3/10 →
      (calculatePRHistoryMetric (extractPRHistoryData data sinceDate) w).normalizedScore = 50) := by
  refine ⟨?_, ?_, ?_, ?_, ?_⟩
  · simp only [extractPRHistoryData]
  · intro h
    have h0 : ¬ (extractPRHistoryData data sinceDate).totalPRs = 0 := by omega
    simp only [calculatePRHistoryMetric, if_neg h0]
  · intro h hrate
    have h0 : ¬ (extractPRHistoryData data sinceDate).totalPRs = 0 := by omega
    simp only [calculatePRHistoryMetric, if_neg h0, hrate]
    norm_num
  · intro h hrate
    have h0 : ¬ (extractPRHistoryData data sinceDate).totalPRs = 0 := by omega
    simp only [calculatePRHistoryMetric, if_neg h0, hrate]
    norm_num
  · intro h hrate
    have h0 : ¬ (extractPRHistoryData data sinceDate).totalPRs = 0 := by omega
    simp only [calculatePRHistoryMetric, if_neg h0, hrate]
    norm_num

/-- C6 witness: one merged and one closed PR give merge rate 1/2, which the
curve maps into the neutral band at score 50. -/
theorem prMergeRate_spec_witness :
    (calculatePRHistoryMetric (extractPRHistoryData mrData 0) (1/5)).normalizedScore = 50 := by
  have h := (prMergeRate_spec mrData 0 (1/5)).2.1
    (by norm_num [extractPRHistoryData, mrData, mrPRmerged, mrPRclosed])
  rw [h]
  norm_num [extractPRHistoryData, mrData, mrPRmerged, mrPRclosed]

/-- Helper: the sum of mapped penalties equals the source's left fold. -/
theorem penalty_sum_eq_foldl (l : List SpamPenalty) :
    (l.map (fun p => p.penalty)).sum = l.foldl (fun sum p => sum + p.penalty) 0 := by
  rw [List.sum_eq_foldl, List.foldl_map]

/-- Helper: the capped spam total is monotone when each listed penalty
grows pointwise. -/
theorem calculateSpamPenalty_mono (l₁ l₂ : List SpamPenalty)
    (h : List.Forall₂ (fun p q => p.penalty ≤ q.penalty) l₁ l₂) :
    calculateSpamPenalty l₁ ≤ calculateSpamPenalty l₂ := by
  have key : ∀ (m₁ m₂ : List SpamPenalty),
      List.Forall₂ (fun p q => p.penalty ≤ q.penalty) m₁ m₂ →
      ∀ a b : ℚ, a ≤ b →
        m₁.foldl (fun sum p => sum + p.penalty) a ≤
          m₂.foldl (fun sum p => sum + p.penalty) b := by
    intro m₁ m₂ hm
    induction hm with
    | nil => intro a b hab; simpa using hab
    | cons hpq _ ih =>
        intro a b hab
        simp only [List.foldl_cons]
        exact ih _ _ (by linarith)
  unfold calculateSpamPenalty
  exact min_le_min (key _ _ h 0 0 le_rfl) le_rfl

/-- C3: the spam detector emits a short-PR penalty of
`min(50 + (ratio − 0.7) × 100, 75)` exactly when `totalPRs > 0` and the
short-PR ratio is at least 0.7; a burst-closed penalty of
`min(50 + closedCount × 2, 75)` exactly when at least 10 PRs were closed
without merge and the merge rate is below 0.2; a fixed penalty of 30
exactly when the account is younger than 7 days with more than 5 PRs; the
total is the sum of triggered penalties capped at 150 and is monotone
non-decreasing in each contributing penalty. -/
theorem detectSpamPatterns_spec (prHistory : PRHistoryData) (account : AccountData) :
    ((∃ p ∈ detectSpamPatterns prHistory account, p.type = .shortPRs) ↔
      0 < prHistory.totalPRs ∧
        7/10 ≤ (prHistory.veryShortPRs : ℚ) / (prHistory.totalPRs : ℚ)) ∧
    (∀ p ∈ detectSpamPatterns prHistory account, p.type = .shortPRs →
      p.penalty = min (50 + ((prHistory.veryShortPRs : ℚ) /
        (prHistory.totalPRs : ℚ) - 7/10) * 100) 75) ∧
    ((∃ p ∈ detectSpamPatterns prHistory account, p.type = .burstClosed) ↔
      10 ≤ prHistory.closedWithoutMerge ∧ prHistory.mergeRate < 1/5) ∧
    (∀ p ∈ detectSpamPatterns prHistory account, p.type = .burstClosed →
      p.penalty = min (50 + (prHistory.closedWithoutMerge : ℚ) * 2) 75) ∧
    ((∃ p ∈ detectSpamPatterns prHistory account, p.type = .newAccountBurst) ↔
      account.ageInDays < 7 ∧ 5 < prHistory.totalPRs) ∧
    (∀ p ∈ detectSpamPatterns prHistory account, p.type = .newAccountBurst →
      p.penalty = 30) ∧
    calculateSpamPenalty (detectSpamPatterns prHistory account) =
      min (((detectSpamPatterns prHistory account).map (fun p => p.penalty)).sum) 150 ∧
    (∀ l₁ l₂ : List SpamPenalty,
      List.Forall₂ (fun p q => p.penalty ≤ q.penalty) l₁ l₂ →
      calculateSpamPenalty l₁ ≤ calculateSpamPenalty l₂) := by
  refine ⟨?_, ?_, ?_, ?_, ?_, ?_, ?_, calculateSpamPenalty_mono⟩
  · simp only [detectSpamPatterns]
    split_ifs <;> simp_all
  · simp only [detectSpamPatterns]
    split_ifs <;> simp_all
  · simp only [detectSpamPatterns]
    split_ifs <;> simp_all
  · simp only [detectSpamPatterns]
    split_ifs <;> simp_all
  · simp only [detectSpamPatterns]
    split_ifs <;> simp_all
  · simp only [detectSpamPatterns]
    split_ifs <;> simp_all
  · rw [penalty_sum_eq_foldl]
    rfl

/-- C3 witness: a history of 10 PRs, 8 of them very short and 10 closed
without merge at merge rate 0, on a 5-day-old account, triggers all three
rules, and the capped total of `60 + 70 + 30` is 150. -/
theorem detectSpamPatterns_spec_witness :
    (∃ p ∈ detectSpamPatterns ⟨10, 0, 10, 0, 0, 4, 8, []⟩ ⟨0, 5, 1, 1, 1⟩,
      p.type = .shortPRs) ∧
    (∃ p ∈ detectSpamPatterns ⟨10, 0, 10, 0, 0, 4, 8, []⟩ ⟨0, 5, 1, 1, 1⟩,
      p.type = .burstClosed) ∧
    (∃ p ∈ detectSpamPatterns ⟨10, 0, 10, 0, 0, 4, 8, []⟩ ⟨0, 5, 1, 1, 1⟩,
      p.type = .newAccountBurst) :=
  ⟨(detectSpamPatterns_spec ⟨10, 0, 10, 0, 0, 4, 8, []⟩ ⟨0, 5, 1, 1, 1⟩).1.mpr
      ⟨by norm_num, by norm_num⟩,
   (detectSpamPatterns_spec ⟨10, 0, 10, 0, 0, 4, 8, []⟩ ⟨0, 5, 1, 1, 1⟩).2.2.1.mpr
      ⟨by norm_num, by norm_num⟩,
   (detectSpamPatterns_spec ⟨10, 0, 10, 0, 0, 4, 8, []⟩ ⟨0, 5, 1, 1, 1⟩).2.2.2.2.1.mpr
      ⟨by norm_num, by norm_num⟩⟩

/-- Helper: one grouping step preserves the invariant. -/
theorem repoGroupInv_step (processed : List PullRequest) (acc : List RepoContribution)
    (pr : PullRequest) (hinv : RepoGroupInv processed acc) :
    RepoGroupInv (processed ++ [pr])
      (match pr.repository with
        | some r => insertRepoContribution acc r
        | none => acc) := by
  obtain ⟨hstars, hkeys, hpair⟩ := hinv
  rcases hrep : pr.repository with _ | r
  · refine ⟨?_, ?_, hpair⟩
    · intro c hc
      obtain ⟨pr₀, hfind, hrepo⟩ := hstars c hc
      refine ⟨pr₀, ?_, hrepo⟩
      rw [List.find?_append, hfind]
      rfl
    · intro o n
      rw [hkeys o n]
      constructor
      · rintro ⟨pr₀, hp₀, ht⟩
        exact ⟨pr₀, List.mem_append_left _ hp₀, ht⟩
      · rintro ⟨pr₀, hp₀, ht⟩
        rcases List.mem_append.mp hp₀ with h | h
        · exact ⟨pr₀, h, ht⟩
        · exfalso
          rw [List.mem_singleton.mp h] at ht
          simp [prTargets, hrep] at ht
  · by_cases hmem : acc.any (fun c => c.owner == r.owner && c.repo == r.name)
    · -- the repository key already exists; only its merged-PR count changes
      simp only [insertRepoContribution, if_pos hmem]
      refine ⟨?_, ?_, ?_⟩
      · intro c hc
        rw [List.mem_map] at hc
        obtain ⟨c₀, hc₀, hup⟩ := hc
        have hfields : c.owner = c₀.owner ∧ c.repo = c₀.repo ∧ c.stars = c₀.stars := by
          subst hup
          split_ifs <;> simp
        obtain ⟨ho, hrp, hst⟩ := hfields
        obtain ⟨pr₀, hfind, hrepo⟩ := hstars c₀ hc₀
        refine ⟨pr₀, ?_, ?_⟩
        · rw [ho, hrp, List.find?_append, hfind]
          rfl
        · rw [ho, hrp, hst]
          exact hrepo
      · intro o n
        have hmapkeys : (∃ c ∈ (acc.map fun c =>
            if c.owner == r.owner && c.repo == r.name then
              { c with mergedPRCount := c.mergedPRCount + 1 }
            else c), c.owner = o ∧ c.repo = n) ↔
            ∃ c ∈ acc, c.owner = o ∧ c.repo = n := by
          simp only [List.mem_map]
          constructor
          · rintro ⟨c, ⟨c₀, hc₀, hup⟩, hkey⟩
            have : c.owner = c₀.owner ∧ c.repo = c₀.repo := by
              subst hup
              split_ifs <;> simp
            exact ⟨c₀, hc₀, this.1 ▸ hkey.1, this.2 ▸ hkey.2⟩
          · rintro ⟨c₀, hc₀, hkey⟩
            refine ⟨if c₀.owner == r.owner && c₀.repo == r.name then
              { c₀ with mergedPRCount := c₀.mergedPRCount + 1 } else c₀,
              ⟨c₀, hc₀, rfl⟩, ?_⟩
            constructor <;> · split_ifs <;> simp [hkey.1, hkey.2]
        rw [hmapkeys, hkeys o n]
        constructor
        · rintro ⟨pr₀, hp₀, ht⟩
          exact ⟨pr₀, List.mem_append_left _ hp₀, ht⟩
        · rintro ⟨pr₀, hp₀, ht⟩
          rcases List.mem_append.mp hp₀ with h | h
          · exact ⟨pr₀, h, ht⟩
          · -- the appended PR targets the existing key `r`
            rw [List.mem_singleton.mp h] at ht
            have hkey : r.owner = o ∧ r.name = n := by
              simp only [prTargets, hrep, Bool.and_eq_true, beq_iff_eq] at ht
              exact ht
            obtain ⟨c₀, hc₀, hc₀key⟩ := (List.any_eq_true.mp hmem)
            rw [Bool.and_eq_true, beq_iff_eq, beq_iff_eq] at hc₀key
            exact ((hkeys o n).mp
              ⟨c₀, hc₀, hc₀key.1.trans hkey.1, hc₀key.2.trans hkey.2⟩)
      · rw [List.pairwise_map]
        refine hpair.imp_of_mem ?_
        intro c₁ c₂ _ _ hne
        intro hcon
        apply hne
        have h₁ : ∀ c : RepoContribution,
            ((if c.owner == r.owner && c.repo == r.name then
              { c with mergedPRCount := c.mergedPRCount + 1 } else c).owner = c.owner) ∧
            ((if c.owner == r.owner && c.repo == r.name then
              { c with mergedPRCount := c.mergedPRCount + 1 } else c).repo = c.repo) := by
          intro c
          split_ifs <;> simp
        exact ⟨((h₁ c₁).1).symm.trans (hcon.1.trans (h₁ c₂).1),
               ((h₁ c₁).2).symm.trans (hcon.2.trans (h₁ c₂).2)⟩
    · -- a new repository key is appended with the PR's star count
      simp only [insertRepoContribution, if_neg hmem]
      have hnew : ∀ c ∈ acc, ¬(c.owner = r.owner ∧ c.repo = r.name) := by
        intro c hc hcon
        apply hmem
        rw [List.any_eq_true]
        exact ⟨c, hc, by rw [Bool.and_eq_true, beq_iff_eq, beq_iff_eq]; exact hcon⟩
      have hnoproc : ∀ pr₀ ∈ processed, ¬ prTargets pr₀ r.owner r.name = true := by
        intro pr₀ hp₀ ht
        exact absurd ((hkeys r.owner r.name).mpr ⟨pr₀, hp₀, ht⟩)
          (by rintro ⟨c, hc, hkey⟩; exact hnew c hc hkey)
      refine ⟨?_, ?_, ?_⟩
      · intro c hc
        rcases List.mem_append.mp hc with h | h
        · obtain ⟨pr₀, hfind, hrepo⟩ := hstars c h
          refine ⟨pr₀, ?_, hrepo⟩
          rw [List.find?_append, hfind]
          rfl
        · rw [List.mem_singleton.mp h]
          refine ⟨pr, ?_, ?_⟩
          · rw [List.find?_append]
            have hfnone : processed.find? (fun pr => prTargets pr r.owner r.name) = none :=
              List.find?_eq_none.mpr hnoproc
            rw [hfnone]
            simp [List.find?, prTargets, hrep]
          · rw [hrep]
      · intro o n
        constructor
        · rintro ⟨c, hc, hkey⟩
          rcases List.mem_append.mp hc with h | h
          · obtain ⟨pr₀, hp₀, ht⟩ := (hkeys o n).mp ⟨c, h, hkey⟩
            exact ⟨pr₀, List.mem_append_left _ hp₀, ht⟩
          · rw [List.mem_singleton.mp h] at hkey
            refine ⟨pr, List.mem_append_right _ (List.mem_singleton.mpr rfl), ?_⟩
            simp only [prTargets, hrep, Bool.and_eq_true, beq_iff_eq]
            exact ⟨hkey.1, hkey.2⟩
        · rintro ⟨pr₀, hp₀, ht⟩
          rcases List.mem_append.mp hp₀ with h | h
          · obtain ⟨c, hc, hkey⟩ := (hkeys o n).mpr ⟨pr₀, h, ht⟩
            exact ⟨c, List.mem_append_left _ hc, hkey⟩
          · rw [List.mem_singleton.mp h] at ht
            simp only [prTargets, hrep, Bool.and_eq_true, beq_iff_eq] at ht
            refine ⟨⟨r.owner, r.name, r.stargazerCount, 1⟩,
              List.mem_append_right _ (List.mem_singleton.mpr rfl), ht.1, ht.2⟩
      · rw [List.pairwise_append]
        refine ⟨hpair, List.pairwise_singleton _ _, ?_⟩
        intro c hc c' hc'
        rw [List.mem_singleton.mp hc']
        intro hcon
        exact hnew c hc ⟨hcon.1, hcon.2⟩

/-- Helper: the grouping fold preserves the invariant along any list. -/
theorem repoGroupInv_foldl (ms : List PullRequest) :
    ∀ (processed : List PullRequest) (acc : List RepoContribution),
      RepoGroupInv processed acc →
      RepoGroupInv (processed ++ ms)
        (ms.foldl (fun m pr => match pr.repository with
          | some r => insertRepoContribution m r
          | none => m) acc) := by
  induction ms with
  | nil =>
      intro processed acc h
      simpa using h
  | cons pr ms ih =>
      intro processed acc h
      have h₁ := repoGroupInv_step processed acc pr h
      have h₂ := ih (processed ++ [pr]) _ h₁
      rw [List.append_assoc] at h₂
      simpa using h₂

/-- C8 counterexample: the extractor does not keep the maximum star count
seen per repository — with PR nodes reporting 10 and then 1000 stars for
the same repository, the maximum seen is 1000, which meets the star floor
500, yet the recorded star count is 10 (the first node's) and the quality
repo count is 0 instead of 1. -/
theorem extractRepoQuality_first_star_counterexample :
    ((starData.user.pullRequests.filterMap (fun pr => pr.repository)).map
      (fun r => r.stargazerCount)).max? = some 1000 ∧
    (500 : ℕ) ≤ 1000 ∧
    (extractRepoQualityData starData 500 0).contributedRepos =
      [⟨"octo", "repo", 10, 2⟩] ∧
    (extractRepoQualityData starData 500 0).qualityRepoCount = 0 := by
  refine ⟨by decide, by decide, ?_, ?_⟩
  · simp [extractRepoQualityData, starData, starPR, insertRepoContribution]
  · simp [extractRepoQualityData, starData, starPR, insertRepoContribution]

/-- C8 (amended): the extractor groups merged-in-window PRs by target
repository with pairwise-distinct keys; for each repository it records the
star count reported by the first PR node seen for that repository (not the
maximum across nodes); it counts as quality repos those whose recorded
star count meets the configured floor; and PRs whose target repository is
null never pass the merged filter. -/
theorem extractRepoQualityData_spec (data : GraphQLContributorData)
    (minimumStars : ℕ) (sinceDate : ℤ) :
    (∀ c ∈ (extractRepoQualityData data minimumStars sinceDate).contributedRepos,
      ∃ pr, (data.user.pullRequests.filter (fun pr =>
          pr.merged && match pr.mergedAt, pr.repository with
            | some mergedDate, some _ => decide (sinceDate ≤ mergedDate)
            | _, _ => false)).find? (fun pr => prTargets pr c.owner c.repo) = some pr ∧
        pr.repository = some ⟨c.owner, c.repo, c.stars⟩) ∧
    (extractRepoQualityData data minimumStars sinceDate).contributedRepos.Pairwise
      (fun c₁ c₂ => ¬(c₁.owner = c₂.owner ∧ c₁.repo = c₂.repo)) ∧
    (extractRepoQualityData data minimumStars sinceDate).qualityRepoCount =
      ((extractRepoQualityData data minimumStars sinceDate).contributedRepos.filter
        (fun c => decide (minimumStars ≤ c.stars))).length ∧
    (∀ pr ∈ data.user.pullRequests, pr.repository = none →
      pr ∉ data.user.pullRequests.filter (fun pr =>
        pr.merged && match pr.mergedAt, pr.repository with
          | some mergedDate, some _ => decide (sinceDate ≤ mergedDate)
          | _, _ => false)) := by
  have hbase : RepoGroupInv [] [] := by
    refine ⟨by simp, by simp, by simp⟩
  have hinv := repoGroupInv_foldl (data.user.pullRequests.filter (fun pr =>
      pr.merged && match pr.mergedAt, pr.repository with
        | some mergedDate, some _ => decide (sinceDate ≤ mergedDate)
        | _, _ => false)) [] [] hbase
  rw [List.nil_append] at hinv
  refine ⟨hinv.1, hinv.2.2, rfl, ?_⟩
  intro pr _ hnone hmem
  have := (List.mem_filter.mp hmem).2
  rw [hnone] at this
  rcases hma : pr.mergedAt with _ | d <;> rw [hma] at this <;> simp at this

/-- C8 witness: the amended quality-count equation instantiated at the
two-PR snapshot with star floor 500. -/
theorem extractRepoQualityData_spec_witness :
    (extractRepoQualityData starData 500 0).qualityRepoCount =
      ((extractRepoQualityData starData 500 0).contributedRepos.filter
        (fun c => decide ((500 : ℕ) ≤ c.stars))).length :=
  (extractRepoQualityData_spec starData 500 0).2.2.1

/-- Helper: membership in a conditional singleton list. -/
theorem mem_if_singleton (c : Prop) [Decidable c] (msg s : String) :
    (s ∈ if c then [msg] else []) ↔ c ∧ s = msg := by
  split_ifs with h <;> simp_all

/-- Helper: a conditional singleton list is empty iff its condition fails. -/
theorem if_singleton_eq_nil (c : Prop) [Decidable c] (msg : String) :
    (if c then [msg] else []) = [] ↔ ¬ c := by
  split_ifs with h <;> simp_all

/-- Helper: membership in a list with a conditionally appended fallback. -/
theorem mem_ite_append_fallback (c : Prop) [Decidable c] (base : List String)
    (fb s : String) :
    (s ∈ if c then base ++ [fb] else base) ↔ s ∈ base ∨ (c ∧ s = fb) := by
  split_ifs with h <;> simp_all

/-- C9 (amended): each family message is emitted exactly when its own
trigger condition holds — below-50 score for the merge-rate family, but
zero quality repos, fewer than 5 reviews, below-40 negative-reaction
score, account age below 30 days, and below-60 consistency score with age
at least 90 days for the other families — and the fallback message is
emitted exactly when the score is below 300 and no family condition
fired. -/
theorem generateRecommendations_conditions (md : AllMetricsData)
    (metrics : List MetricResult) (score : ℤ) :
    (MSG_PR_MERGE_RATE ∈ generateRecommendations md metrics score ↔
      recCondPRMergeRate metrics) ∧
    (MSG_REPO_QUALITY ∈ generateRecommendations md metrics score ↔
      recCondRepoQuality md metrics) ∧
    (MSG_CODE_REVIEWS ∈ generateRecommendations md metrics score ↔
      recCondCodeReviews md metrics) ∧
    (MSG_NEGATIVE_REACTIONS ∈ generateRecommendations md metrics score ↔
      recCondNegativeReactions metrics) ∧
    (MSG_NEW_ACCOUNT ∈ generateRecommendations md metrics score ↔
      recCondNewAccount md) ∧
    (MSG_CONSISTENCY ∈ generateRecommendations md metrics score ↔
      recCondConsistency md metrics) ∧
    (MSG_FALLBACK ∈ generateRecommendations md metrics score ↔
      score < 300 ∧ ¬recCondPRMergeRate metrics ∧ ¬recCondRepoQuality md metrics ∧
        ¬recCondCodeReviews md metrics ∧ ¬recCondNegativeReactions metrics ∧
        ¬recCondNewAccount md ∧ ¬recCondConsistency md metrics) := by
  simp only [generateRecommendations, recCondPRMergeRate, recCondRepoQuality,
    recCondCodeReviews, recCondNegativeReactions, recCondNewAccount,
    recCondConsistency]
  rcases h1 : metrics.find? (fun m => m.name == "prMergeRate") with _ | m1 <;>
    rcases h2 : metrics.find? (fun m => m.name == "repoQuality") with _ | m2 <;>
      rcases h3 : metrics.find? (fun m => m.name == "codeReviews") with _ | m3 <;>
        rcases h4 : metrics.find? (fun m => m.name == "negativeReactions") with _ | m4 <;>
          rcases h6 : metrics.find? (fun m => m.name == "activityConsistency") with _ | m6 <;>
            simp only [h1, h2, h3, h4, h6] <;>
            simp only [mem_ite_append_fallback, List.mem_append, mem_if_singleton,
              List.length_eq_zero, List.append_eq_nil, if_singleton_eq_nil,
              List.not_mem_nil, List.mem_singleton, false_or, or_false,
              Option.some.injEq, reduceCtorEq, exists_eq_left, false_and, and_false,
              true_and, and_true, not_false_eq_true, exists_false, or_self] <;>
            refine ⟨?_, ?_, ?_, ?_, ?_, ?_, ?_⟩ <;>
            simp +decide [MSG_PR_MERGE_RATE, MSG_REPO_QUALITY, MSG_CODE_REVIEWS,
              MSG_NEGATIVE_REACTIONS, MSG_NEW_ACCOUNT, MSG_CONSISTENCY,
              MSG_FALLBACK] <;>
            tauto

/-- C9 counterexample: recommendation messages are not emitted exactly for
metrics scoring below 50 — here every metric scores at least 50, yet the
repo-quality message is emitted (its trigger is a zero quality-repo count,
not a below-50 score). -/
theorem generateRecommendations_counterexample :
    (∀ m ∈ recMetrics, 50 ≤ m.normalizedScore) ∧
    generateRecommendations recMetricsData recMetrics 600 = [MSG_REPO_QUALITY] := by
  constructor
  · decide
  · decide

/-- C9 witness: the amended repo-quality trigger instantiated — the
repo-quality message is in the output because the quality-repo count is
zero. -/
theorem generateRecommendations_conditions_witness :
    MSG_REPO_QUALITY ∈ generateRecommendations recMetricsData recMetrics 600 :=
  (generateRecommendations_conditions recMetricsData recMetrics 600).2.1.mpr
    ⟨⟨⟨"repoQuality", 0, 50, 50, 1, "", 0⟩, by decide⟩, rfl⟩

end ContributorQuality
